import Mathlib

/-!
Shallow embedding of the payment / fulfillment core of `src/bot.py`
(a digital-goods shop bot backed by an SQLite database and an external
invoice processor).

The SQLite tables (created in `init_db`) become lists of rows; each
Python database helper becomes a pure function on a `DB` state.  The
external gateway (`create_invoice`, `check_invoice`) performs network
calls; its observable responses are threaded in as explicit inputs, and
the handlers `cb_buy` / `cb_check_payment` become functions from the
gateway response and the current `DB` to a new `DB` and an outcome.

Prices are SQLite REAL values; they are modelled as exact rationals
(the spec fixes a decimal amount, and no claim here depends on binary
floating-point rounding).  Timestamps (`datetime.now().isoformat()`)
are nondeterministic inputs and are passed in as explicit `now`
arguments.  Statuses are the literal strings stored in the `status`
column.
-/

namespace Shop

/-- A row of the `users` table (`init_db`, lines 60-68): the primary key
`user_id`, profile fields, and the denormalized aggregate
`total_purchases` / `total_spent` (both DEFAULT 0). -/
structure UserRow where
  user_id : Nat
  username : String
  first_name : String
  balance : Rat
  total_purchases : Nat
  total_spent : Rat
  registered_at : String
  deriving Repr, DecidableEq

/-- A row of the `products` table (lines 73-85).  `is_active` is the
INTEGER flag (DEFAULT 1) that `delete_product` clears. -/
structure ProductRow where
  id : Nat
  category_id : Nat
  name : String
  description : String
  price : Rat
  product_type : String
  content : String
  file_id : String
  is_active : Nat
  created_at : String
  deriving Repr, DecidableEq

/-- A row of the `purchases` table (lines 86-94). -/
structure PurchaseRow where
  id : Nat
  user_id : Nat
  product_id : Nat
  price : Rat
  purchased_at : String
  deriving Repr, DecidableEq

/-- A row of the `payments` table (lines 104-112).  Note the schema has
no UNIQUE constraint on `invoice_id`; `status` is TEXT DEFAULT 'pending'. -/
structure PaymentRow where
  id : Nat
  user_id : Nat
  product_id : Nat
  invoice_id : String
  amount : Rat
  status : String
  created_at : String
  deriving Repr, DecidableEq

/-- The database state: one list per table, plus the AUTOINCREMENT
counters for the tables whose ids the model uses. -/
structure DB where
  users : List UserRow
  products : List ProductRow
  purchases : List PurchaseRow
  payments : List PaymentRow
  next_product_id : Nat
  next_purchase_id : Nat
  next_payment_id : Nat
  deriving Repr, DecidableEq

/-- The freshly initialised database (`init_db` creates empty tables;
SQLite AUTOINCREMENT starts at 1). -/
def emptyDB : DB :=
  { users := [], products := [], purchases := [], payments := []
    next_product_id := 1, next_purchase_id := 1, next_payment_id := 1 }

/-- Source `add_user` (lines 116-120): INSERT OR IGNORE on the `user_id`
primary key, with balance and both aggregate columns defaulting to 0. -/
def add_user (uid : Nat) (username first_name registered_at : String) (db : DB) : DB :=
  if db.users.any (fun u => u.user_id == uid) then db
  else { db with users := db.users ++
    [{ user_id := uid, username := username, first_name := first_name,
       balance := 0, total_purchases := 0, total_spent := 0,
       registered_at := registered_at }] }

/-- Source `get_user` (lines 123-127): SELECT * FROM users WHERE user_id = ?, fetchone. -/
def get_user (uid : Nat) (db : DB) : Option UserRow :=
  db.users.find? (fun u => u.user_id == uid)

/-- Source `get_product` (lines 171-175): SELECT * FROM products WHERE id = ?,
with no condition on `is_active`. -/
def get_product (product_id : Nat) (db : DB) : Option ProductRow :=
  db.products.find? (fun p => p.id == product_id)

/-- Source `get_products_by_category` (lines 163-168): SELECT * FROM products
WHERE category_id = ? AND is_active = 1. -/
def get_products_by_category (category_id : Nat) (db : DB) : List ProductRow :=
  db.products.filter (fun p => p.category_id == category_id && p.is_active == 1)

/-- Source `add_product` (lines 178-184): INSERT a new product row (is_active
takes its DEFAULT 1). -/
def add_product (category_id : Nat) (name description : String) (price : Rat)
    (product_type content file_id created_at : String) (db : DB) : DB :=
  { db with
    products := db.products ++
      [{ id := db.next_product_id, category_id := category_id, name := name,
         description := description, price := price, product_type := product_type,
         content := content, file_id := file_id, is_active := 1,
         created_at := created_at }]
    next_product_id := db.next_product_id + 1 }

/-- Source `delete_product` (lines 187-190): UPDATE products SET is_active = 0
WHERE id = ?.  The row is kept, only deactivated. -/
def delete_product (product_id : Nat) (db : DB) : DB :=
  { db with products := db.products.map (fun p =>
      if p.id == product_id then { p with is_active := 0 } else p) }

/-- Source `add_purchase` (lines 193-199): one transaction that INSERTs a
purchase row and UPDATEs the requesting user's aggregate columns
(`total_purchases + 1`, `total_spent + price`), then commits. -/
def add_purchase (uid product_id : Nat) (price : Rat) (now : String) (db : DB) : DB :=
  { db with
    purchases := db.purchases ++
      [{ id := db.next_purchase_id, user_id := uid, product_id := product_id,
         price := price, purchased_at := now }]
    users := db.users.map (fun u =>
      if u.user_id == uid then
        { u with total_purchases := u.total_purchases + 1,
                 total_spent := u.total_spent + price }
      else u)
    next_purchase_id := db.next_purchase_id + 1 }

/-- Source `save_payment` (lines 238-242): a plain INSERT into `payments`
(status takes its DEFAULT 'pending').  No uniqueness check of any kind
is made on `invoice_id`, and the function cannot fail. -/
def save_payment (uid product_id : Nat) (invoice_id : String) (amount : Rat)
    (now : String) (db : DB) : DB :=
  { db with
    payments := db.payments ++
      [{ id := db.next_payment_id, user_id := uid, product_id := product_id,
         invoice_id := invoice_id, amount := amount, status := "pending",
         created_at := now }]
    next_payment_id := db.next_payment_id + 1 }

/-- Source `update_payment_status` (lines 245-248): UPDATE payments SET
status = ? WHERE invoice_id = ? — unconditional on the current status. -/
def update_payment_status (invoice_id status : String) (db : DB) : DB :=
  { db with payments := db.payments.map (fun p =>
      if p.invoice_id == invoice_id then { p with status := status } else p) }

/-- Source `get_payment` (lines 251-255): SELECT * FROM payments WHERE
invoice_id = ?, fetchone (the first matching row). -/
def get_payment (invoice_id : String) (db : DB) : Option PaymentRow :=
  db.payments.find? (fun p => p.invoice_id == invoice_id)

/-- The observable fields of one invoice item returned by the gateway's
`getInvoices` poll (`check_invoice`, lines 289-303); the handler only
inspects `status`. -/
structure GatewayInvoice where
  status : String
  deriving Repr, DecidableEq

/-- The `result` object of a successful `createInvoice` gateway call;
`cb_buy` uses its `invoice_id` and `pay_url`. -/
structure InvoiceInfo where
  invoice_id : String
  pay_url : String
  deriving Repr, DecidableEq

/-- The JSON envelope the createInvoice endpoint answers with
(`create_invoice`, lines 282-286): an `ok` flag, the result when ok,
and the processor's error detail when not ok (which the source never
reads). -/
structure GwCreateResponse where
  ok : Bool
  result : Option InvoiceInfo
  error_name : String
  deriving Repr, DecidableEq

/-- Source `create_invoice` (lines 265-286), given the processor's response
envelope: `if result.get("ok"): return result["result"]` and otherwise
`return None`.  Every failure — transport-level non-success and logical
processor rejection alike — yields the same `none`; `error_name` is
never consulted. -/
def create_invoice (resp : GwCreateResponse) : Option InvoiceInfo :=
  if resp.ok then resp.result else none

/-- The user-visible outcome of `cb_buy` (lines 518-552). -/
inductive BuyOutcome
  | productNotFound
  | createFailed
  | invoiceCreated (invoice_id : String)
  deriving Repr, DecidableEq

/-- Source `cb_buy` (lines 518-552): look the product up, ask the gateway to
create an invoice, and on success record a pending payment snapshotting
the product's price.  A `none` from `create_invoice` yields the single
generic failure alert. -/
def cb_buy (prod_id requester : Nat) (resp : GwCreateResponse) (now : String)
    (db : DB) : DB × BuyOutcome :=
  match get_product prod_id db with
  | none => (db, .productNotFound)
  | some product =>
    match create_invoice resp with
    | none => (db, .createFailed)
    | some inv =>
        (save_payment requester prod_id inv.invoice_id product.price now db,
         .invoiceCreated inv.invoice_id)

/-- The user-visible outcome of `cb_check_payment` (lines 555-597):
`gatewayError` is the "payment check error" alert when `check_invoice`
returns nothing; `fulfilled` carries the chat the content is sent to
and the product row used for delivery; `alreadyFulfilled` is the
"already delivered" alert; `notPaid` is the "payment not found, retry
later" alert. -/
inductive CheckOutcome
  | gatewayError
  | fulfilled (recipient : Nat) (product : Option ProductRow)
  | alreadyFulfilled
  | notPaid
  deriving Repr, DecidableEq

/-- Source `cb_check_payment` (lines 555-597): poll the gateway; if it reports
paid, read the payment, and when its status is 'pending' write 'paid'
(`update_payment_status`), look up the product, record the purchase
under the **requester's** id (`callback.from_user.id`) with the
payment's snapshotted amount, and deliver the product content to the
requester.  Any other gateway status answers the retry alert without
touching the database. -/
def cb_check_payment (invoice_id : String) (requester : Nat)
    (gw : Option GatewayInvoice) (now : String) (db : DB) : DB × CheckOutcome :=
  match gw with
  | none => (db, .gatewayError)
  | some invoice =>
    if invoice.status = "paid" then
      match get_payment invoice_id db with
      | some payment =>
        if payment.status = "pending" then
          let db1 := update_payment_status invoice_id "paid" db
          let product := get_product payment.product_id db1
          let db2 := add_purchase requester payment.product_id payment.amount now db1
          (db2, .fulfilled requester product)
        else (db, .alreadyFulfilled)
      | none => (db, .alreadyFulfilled)
    else (db, .notPaid)

/-- Modelled from the spec: `markPaidIfPending` (§4.2), the single atomic
compare-and-set the spec mandates — one indivisible conditional update
that moves `pending` to `paid` and reports true only to the call that
performed the transition.  The source has no such operation (its check
path is a separate `get_payment` read followed by an unconditional
`update_payment_status` write); this definition is the spec side of the
comparison. -/
def markPaidIfPending (invoice_id : String) (db : DB) : DB × Bool :=
  match get_payment invoice_id db with
  | some p =>
      if p.status = "pending" then (update_payment_status invoice_id "paid" db, true)
      else (db, false)
  | none => (db, false)

/-- The remainder of `cb_check_payment`'s paid branch after its own
`get_payment` read returned `snap` (lines 565-569): the separate storage
transactions the source then performs — the unconditional status UPDATE
and the purchase INSERT — with the pending test made on the process's
own (possibly stale) snapshot.  Returns whether this invocation took the
success (fulfillment) branch. -/
def checkPaidBranch (invoice_id : String) (requester : Nat) (snap : Option PaymentRow)
    (now : String) (db : DB) : DB × Bool :=
  match snap with
  | some payment =>
      if payment.status = "pending" then
        let db1 := update_payment_status invoice_id "paid" db
        let db2 := add_purchase requester payment.product_id payment.amount now db1
        (db2, true)
      else (db, false)
  | none => (db, false)

/-- An interleaved schedule of two concurrent `cb_check_payment`
invocations on the same invoice, both already told "paid" by the
gateway: each `get_payment` read and each write is its own awaited
storage operation in the source, so the schedule in which both reads
happen before either write is a possible execution. -/
def racyCheckTwice (invoice_id : String) (reqA reqB : Nat) (now : String)
    (db : DB) : DB × (Bool × Bool) :=
  let snapA := get_payment invoice_id db
  let snapB := get_payment invoice_id db
  let resA := checkPaidBranch invoice_id reqA snapA now db
  let resB := checkPaidBranch invoice_id reqB snapB now resA.1
  (resB.1, (resA.2, resB.2))

/-- A product row used by the concrete test states. -/
def prodSeven : ProductRow :=
  { id := 7, category_id := 3, name := "Prod", description := "d", price := 10,
    product_type := "text", content := "secret", file_id := "", is_active := 1,
    created_at := "t0" }

/-- A pending payment by user 1 for product 7, invoice "inv1". -/
def payPending : PaymentRow :=
  { id := 1, user_id := 1, product_id := 7, invoice_id := "inv1", amount := 10,
    status := "pending", created_at := "t0" }

/-- Concrete state: one product, one pending payment, no purchases. -/
def dbRace : DB :=
  { emptyDB with products := [prodSeven], payments := [payPending],
                 next_product_id := 8, next_payment_id := 2 }

def dbAfterFlip : DB := update_payment_status "inv1" "paid" dbRace

def payPaid : PaymentRow := { payPending with status := "paid" }

def dbPaid : DB := { dbRace with payments := [payPaid] }

def paymentsWithInvoice (inv : String) (db : DB) : Nat :=
  (db.payments.filter (fun p => p.invoice_id == inv)).length

def dbDup : DB := save_payment 2 7 "inv1" 10 "t1" (save_payment 1 7 "inv1" 10 "t0" emptyDB)

def invoiceIdsUnique (db : DB) : Prop :=
  db.payments.Pairwise (fun a b => a.invoice_id ≠ b.invoice_id)

instance (db : DB) : Decidable (invoiceIdsUnique db) := by
  unfold invoiceIdsUnique; infer_instance

def respUnavailable : GwCreateResponse :=
  { ok := false, result := none, error_name := "SERVICE_UNAVAILABLE" }

def respRejected : GwCreateResponse :=
  { ok := false, result := none, error_name := "AMOUNT_INVALID" }

def dbShop : DB := { emptyDB with products := [prodSeven], next_product_id := 8 }

def userRegistered (uid : Nat) (db : DB) : Bool :=
  db.users.any (fun u => u.user_id == uid)

def userPurchases (uid : Nat) (db : DB) : List PurchaseRow :=
  db.purchases.filter (fun pr => pr.user_id == uid)

def aggregateConsistent (db : DB) : Prop :=
  ∀ u ∈ db.users,
    u.total_purchases = (userPurchases u.user_id db).length
    ∧ u.total_spent = ((userPurchases u.user_id db).map PurchaseRow.price).sum

def purchasesRegistered (db : DB) : Prop :=
  ∀ pr ∈ db.purchases, userRegistered pr.user_id db = true

def ledgerConsistent (db : DB) : Prop :=
  aggregateConsistent db ∧ purchasesRegistered db

instance (db : DB) : Decidable (aggregateConsistent db) := by
  unfold aggregateConsistent; infer_instance

instance (db : DB) : Decidable (purchasesRegistered db) := by
  unfold purchasesRegistered; infer_instance

instance (db : DB) : Decidable (ledgerConsistent db) := by
  unfold ledgerConsistent; infer_instance

inductive Op
  | addUser (uid : Nat) (username first_name registered_at : String)
  | addProduct (category_id : Nat) (name description : String) (price : Rat)
      (product_type content file_id created_at : String)
  | deleteProduct (product_id : Nat)
  | savePayment (uid product_id : Nat) (invoice_id : String) (amount : Rat) (now : String)
  | updateStatus (invoice_id status : String)
  | addPurchase (uid product_id : Nat) (price : Rat) (now : String)
  | buy (prod_id requester : Nat) (resp : GwCreateResponse) (now : String)
  | checkPayment (invoice_id : String) (requester : Nat) (gw : Option GatewayInvoice)
      (now : String)

def applyOp : Op → DB → DB
  | .addUser uid username first_name registered_at, db =>
      add_user uid username first_name registered_at db
  | .addProduct c n d p t co f cr, db => add_product c n d p t co f cr db
  | .deleteProduct pid, db => delete_product pid db
  | .savePayment u pid inv amt now, db => save_payment u pid inv amt now db
  | .updateStatus inv s, db => update_payment_status inv s db
  | .addPurchase u pid price now, db => add_purchase u pid price now db
  | .buy pid r resp now, db => (cb_buy pid r resp now db).1
  | .checkPayment inv r gw now, db => (cb_check_payment inv r gw now db).1

def runOps : List Op → DB → DB
  | [], db => db
  | op :: rest, db => runOps rest (applyOp op db)

def opOk (db : DB) : Op → Bool
  | .addPurchase uid _ _ _ => userRegistered uid db
  | .checkPayment _ requester _ _ => userRegistered requester db
  | _ => true

def opsOk : DB → List Op → Bool
  | _, [] => true
  | db, op :: rest => opOk db op && opsOk (applyOp op db) rest

def dbBadOrder : DB := add_user 5 "u" "f" "t1" (add_purchase 5 7 10 "t0" emptyDB)

/-- Claim C1 (refuted, code side): the spec mandates one indivisible
conditional update for the pending→paid transition, "not a separate read
followed by a separate write".  The source's check path IS a separate
`get_payment` read followed by an unconditional `update_payment_status`
write plus an `add_purchase`: interleaving two invocations on the same
pending invoice so that both reads precede both writes makes both take
the success branch and record two purchases, whereas the spec's atomic
`markPaidIfPending`, run twice, reports true exactly once. -/
theorem c1_race_two_winners :
    (racyCheckTwice "inv1" 1 2 "t1" dbRace).2 = (true, true)
    ∧ ((racyCheckTwice "inv1" 1 2 "t1" dbRace).1).purchases.length = 2
    ∧ (markPaidIfPending "inv1" dbRace).2 = true
    ∧ (markPaidIfPending "inv1" (markPaidIfPending "inv1" dbRace).1).2 = false := by
  decide

/-- Claim C3 (refuted on the code): the status flip and the purchase
insert are two separately committed transactions in the source, so the
state after only the first commit — Payment paid, zero Purchase rows —
is reachable when the invocation fails between them; a retried check on
that state answers the already-delivered alert without ever appending
the missing Purchase row, so no retry path repairs it. -/
theorem c3_partial_commit_reachable :
    (get_payment "inv1" dbAfterFlip).map PaymentRow.status = some "paid"
    ∧ dbAfterFlip.purchases = []
    ∧ cb_check_payment "inv1" 1 (some { status := "paid" }) "t2" dbAfterFlip
        = (dbAfterFlip, .alreadyFulfilled) := by
  decide

/-- Claim C2: once the Payment for an invoice id has status paid, any
further `cb_check_payment` on it (with the gateway still reporting paid)
returns the database unchanged together with the already-delivered
outcome: no content delivery, no new Purchase row, no aggregate change. -/
theorem check_idempotent_after_paid
    (invoice_id : String) (requester : Nat) (now : String) (db : DB)
    (gw : GatewayInvoice) (hgw : gw.status = "paid")
    (p : PaymentRow) (hp : get_payment invoice_id db = some p)
    (hpaid : p.status = "paid") :
    cb_check_payment invoice_id requester (some gw) now db = (db, .alreadyFulfilled) := by
  simp [cb_check_payment, hgw, hp, hpaid]

/-- Claim C2, witness: the idempotence theorem applied to a concrete
state holding one paid payment. -/
theorem check_idempotent_after_paid_witness :
    cb_check_payment "inv1" 1 (some { status := "paid" }) "t1" dbPaid
      = (dbPaid, .alreadyFulfilled) :=
  check_idempotent_after_paid "inv1" 1 "t1" dbPaid { status := "paid" } rfl payPaid rfl rfl

/-- Claim C8: when the gateway poll fails (`none`) or reports any
status other than paid, `cb_check_payment` leaves the database — Payment
rows, Purchase ledger and user aggregate — untouched and answers one of
the two retryable not-yet-paid alerts. -/
theorem check_no_mutation_when_unpaid
    (invoice_id : String) (requester : Nat) (now : String) (db : DB)
    (gw : Option GatewayInvoice) (h : ∀ i, gw = some i → i.status ≠ "paid") :
    (cb_check_payment invoice_id requester gw now db).1 = db
    ∧ ((cb_check_payment invoice_id requester gw now db).2 = CheckOutcome.gatewayError
       ∨ (cb_check_payment invoice_id requester gw now db).2 = CheckOutcome.notPaid) := by
  cases gw with
  | none => simp [cb_check_payment]
  | some i =>
    have hi : i.status ≠ "paid" := h i rfl
    simp [cb_check_payment, hi]

/-- Claim C8, witness: the frame theorem applied to a concrete pending
payment with the gateway reporting a non-paid status. -/
theorem check_no_mutation_when_unpaid_witness :
    (cb_check_payment "inv1" 1 (some { status := "active" }) "t1" dbRace).1 = dbRace
    ∧ ((cb_check_payment "inv1" 1 (some { status := "active" }) "t1" dbRace).2
          = CheckOutcome.gatewayError
       ∨ (cb_check_payment "inv1" 1 (some { status := "active" }) "t1" dbRace).2
          = CheckOutcome.notPaid) :=
  check_no_mutation_when_unpaid "inv1" 1 "t1" dbRace (some { status := "active" })
    (by intro i hi; cases hi; decide)

/-- Claim C4 (counterexample): for requester 2 checking the invoice of
a Payment created by user 1, the appended Purchase row carries user id 2
— the requester — not the originating Payment's user id 1, and the
content is delivered to requester 2, refuting the claim that the row
records the Payment's user id and delivery goes to the Payment's buyer. -/
theorem c4_counterexample :
    ((cb_check_payment "inv1" 2 (some { status := "paid" }) "t1" dbRace).1).purchases.map
        PurchaseRow.user_id = [2]
    ∧ (get_payment "inv1" dbRace).map PaymentRow.user_id = some 1
    ∧ (cb_check_payment "inv1" 2 (some { status := "paid" }) "t1" dbRace).2
        = CheckOutcome.fulfilled 2 (some prodSeven)
    ∧ (2 : Nat) ≠ 1 := by
  decide

/-- Claim C4 (amended): when a payment check wins the pending→paid
transition, the Purchase row it appends records the **requester's** user
id together with the Payment's snapshotted amount, and content delivery
is dispatched to the requester; these coincide with the Payment's buyer
only when the requester is that buyer. -/
theorem check_win_records_requester
    (invoice_id : String) (requester : Nat) (now : String) (db : DB)
    (gw : GatewayInvoice) (hgw : gw.status = "paid")
    (p : PaymentRow) (hp : get_payment invoice_id db = some p)
    (hpend : p.status = "pending") :
    (cb_check_payment invoice_id requester (some gw) now db).2
      = CheckOutcome.fulfilled requester
          (get_product p.product_id (update_payment_status invoice_id "paid" db))
    ∧ ((cb_check_payment invoice_id requester (some gw) now db).1).purchases
      = db.purchases ++
        [{ id := db.next_purchase_id, user_id := requester, product_id := p.product_id,
           price := p.amount, purchased_at := now }] := by
  simp [cb_check_payment, hgw, hp, hpend, add_purchase, update_payment_status]

/-- Claim C4 (amended), witness: the winning check applied at a
concrete pending payment. -/
theorem check_win_records_requester_witness :
    (cb_check_payment "inv1" 2 (some { status := "paid" }) "t1" dbRace).2
      = CheckOutcome.fulfilled 2
          (get_product 7 (update_payment_status "inv1" "paid" dbRace)) :=
  (check_win_records_requester "inv1" 2 "t1" dbRace { status := "paid" } rfl
    payPending rfl rfl).1

/-- Claim C5 (counterexample): recording a second payment with the
already-present invoice id "inv1" succeeds and leaves two rows with that
invoice id (the pre-existing row unchanged), refuting the claim that
`save_payment` fails with DuplicateInvoice and inserts nothing. -/
theorem c5_counterexample :
    paymentsWithInvoice "inv1" dbDup = 2
    ∧ dbDup.payments.head? = (save_payment 1 7 "inv1" 10 "t0" emptyDB).payments.head? := by
  decide

/-- Claim C5 (amended): `save_payment` never reports a duplicate —
the schema has no UNIQUE constraint on invoice_id and the function
cannot fail.  It unconditionally appends one new pending row, leaving
every pre-existing row unchanged, even when the invoice id already
exists. -/
theorem save_payment_always_appends (uid pid : Nat) (inv : String) (amt : Rat)
    (now : String) (db : DB) :
    (save_payment uid pid inv amt now db).payments
      = db.payments ++
        [{ id := db.next_payment_id, user_id := uid, product_id := pid,
           invoice_id := inv, amount := amt, status := "pending", created_at := now }] := rfl

/-- Claim C6 (counterexample): the state reached by two `save_payment`
calls with the same invoice id has two Payment rows sharing an invoice
id, so invoice-id uniqueness does not hold at all reachable states. -/
theorem c6_counterexample : ¬ invoiceIdsUnique dbDup := by decide

lemma invoiceIdsUnique_update_payment_status (inv s : String) (db : DB)
    (h : invoiceIdsUnique db) : invoiceIdsUnique (update_payment_status inv s db) := by
  unfold invoiceIdsUnique update_payment_status
  rw [List.pairwise_map]
  have key : ∀ p : PaymentRow,
      (if p.invoice_id == inv then { p with status := s } else p).invoice_id
        = p.invoice_id := by
    intro p; split <;> rfl
  refine List.Pairwise.imp (fun hab => ?_) h
  dsimp only
  rw [key, key]
  exact hab

lemma invoiceIdsUnique_add_purchase (uid pid : Nat) (price : Rat) (now : String)
    (db : DB) (h : invoiceIdsUnique db) :
    invoiceIdsUnique (add_purchase uid pid price now db) := h

lemma invoiceIdsUnique_check (invoice_id : String) (requester : Nat)
    (gw : Option GatewayInvoice) (now : String) (db : DB) (h : invoiceIdsUnique db) :
    invoiceIdsUnique ((cb_check_payment invoice_id requester gw now db).1) := by
  unfold cb_check_payment
  cases gw with
  | none => exact h
  | some invoice =>
    dsimp only
    split
    · split
      · split
        · exact invoiceIdsUnique_add_purchase _ _ _ _ _
            (invoiceIdsUnique_update_payment_status _ _ _ h)
        · exact h
      · exact h
    · exact h

/-- Claim C6 (amended): invoice-id uniqueness is not enforced by the
schema; it is preserved by `update_payment_status`, `add_purchase` and
the whole check-payment path unconditionally, and by `save_payment` only
under the precondition that the supplied invoice id is fresh. -/
theorem invoice_unique_preserved (db : DB) (h : invoiceIdsUnique db) :
    (∀ uid pid inv amt now, (∀ p ∈ db.payments, p.invoice_id ≠ inv) →
        invoiceIdsUnique (save_payment uid pid inv amt now db))
    ∧ (∀ inv s, invoiceIdsUnique (update_payment_status inv s db))
    ∧ (∀ uid pid price now, invoiceIdsUnique (add_purchase uid pid price now db))
    ∧ (∀ invoice_id requester gw now,
        invoiceIdsUnique ((cb_check_payment invoice_id requester gw now db).1)) := by
  refine ⟨?_, ?_, ?_, ?_⟩
  · intro uid pid inv amt now hfresh
    unfold invoiceIdsUnique save_payment
    rw [List.pairwise_append]
    exact ⟨h, List.pairwise_singleton _ _, by
      intro a ha b hb
      simp only [List.mem_singleton] at hb
      subst hb
      exact hfresh a ha⟩
  · intro inv s; exact invoiceIdsUnique_update_payment_status inv s db h
  · intro uid pid price now; exact invoiceIdsUnique_add_purchase uid pid price now db h
  · intro invoice_id requester gw now; exact invoiceIdsUnique_check _ _ _ _ _ h

/-- Claim C6 (amended), witness: preservation applied to a concrete
one-payment state and a fresh invoice id. -/
theorem invoice_unique_preserved_witness :
    invoiceIdsUnique (save_payment 2 7 "inv2" 10 "t1"
      (save_payment 1 7 "inv1" 10 "t0" emptyDB)) :=
  (invoice_unique_preserved (save_payment 1 7 "inv1" 10 "t0" emptyDB) (by decide)).1
    2 7 "inv2" 10 "t1" (by decide)

/-- Claim C9 (counterexample): a transport-level non-success envelope
and a logical processor rejection (invalid amount) are distinct
responses, yet `create_invoice` maps both to the same undifferentiated
`none` and `cb_buy` renders the same single generic failure for both —
there is no GatewayUnavailable / GatewayRejected distinction anywhere in
the result. -/
theorem c9_counterexample :
    create_invoice respUnavailable = none
    ∧ create_invoice respRejected = none
    ∧ respUnavailable ≠ respRejected
    ∧ cb_buy 7 1 respUnavailable "t1" dbShop = (dbShop, BuyOutcome.createFailed)
    ∧ cb_buy 7 1 respRejected "t1" dbShop = (dbShop, BuyOutcome.createFailed) := by
  decide

/-- Claim C9 (amended): `create_invoice` collapses every failing
response — network/non-success and processor logical rejection alike —
into the single failure value `none`; any two failing responses are
indistinguishable in its result. -/
theorem create_invoice_collapses_failures (r1 r2 : GwCreateResponse)
    (h1 : r1.ok = false) (h2 : r2.ok = false) :
    create_invoice r1 = none ∧ create_invoice r1 = create_invoice r2 := by
  simp [create_invoice, h1, h2]

/-- Claim C9 (amended), witness: the collapse theorem applied to the
two concrete failure envelopes. -/
theorem create_invoice_collapses_failures_witness :
    create_invoice respUnavailable = none
    ∧ create_invoice respUnavailable = create_invoice respRejected :=
  create_invoice_collapses_failures respUnavailable respRejected rfl rfl

lemma userRegistered_add_purchase (x uid pid : Nat) (price : Rat) (now : String)
    (db : DB) :
    userRegistered x (add_purchase uid pid price now db) = userRegistered x db := by
  unfold userRegistered add_purchase
  dsimp only
  rw [List.any_map]
  congr 1
  funext u
  dsimp [Function.comp]
  split <;> rfl

lemma ledgerConsistent_add_purchase (uid pid : Nat) (price : Rat) (now : String)
    (db : DB) (hreg : userRegistered uid db = true) (h : ledgerConsistent db) :
    ledgerConsistent (add_purchase uid pid price now db) := by
  obtain ⟨hagg, hpr⟩ := h
  have hpurch : (add_purchase uid pid price now db).purchases
      = db.purchases ++
        [{ id := db.next_purchase_id, user_id := uid, product_id := pid,
           price := price, purchased_at := now }] := rfl
  constructor
  · intro u' hu'
    have hu'' : u' ∈ db.users.map (fun u =>
        if u.user_id == uid then
          { u with total_purchases := u.total_purchases + 1,
                   total_spent := u.total_spent + price }
        else u) := hu'
    obtain ⟨u, hu, hfu⟩ := List.mem_map.mp hu''
    have hold := hagg u hu
    by_cases hc : (u.user_id == uid) = true
    · have huid : u.user_id = uid := by simpa using hc
      have hfu' : ({ u with total_purchases := u.total_purchases + 1,
                            total_spent := u.total_spent + price } : UserRow) = u' := by
        rw [← hfu]; simp [hc]
      subst hfu'
      have hx : userPurchases u.user_id (add_purchase uid pid price now db)
          = userPurchases u.user_id db ++
            [{ id := db.next_purchase_id, user_id := uid, product_id := pid,
               price := price, purchased_at := now }] := by
        unfold userPurchases
        rw [hpurch, List.filter_append]
        congr 1
        simp [List.filter_cons, huid]
      constructor
      · show u.total_purchases + 1 = _
        rw [hx, List.length_append, hold.1]
        rfl
      · show u.total_spent + price = _
        rw [hx, List.map_append, List.sum_append, hold.2]
        simp
    · have hfu' : u = u' := by rw [← hfu]; simp [hc]
      subst hfu'
      have hne : u.user_id ≠ uid := by simpa using hc
      have hx : userPurchases u.user_id (add_purchase uid pid price now db)
          = userPurchases u.user_id db := by
        unfold userPurchases
        rw [hpurch, List.filter_append]
        have hff : (uid == u.user_id) = false := by simpa using (Ne.symm hne)
        simp [List.filter_cons, hff]
      rw [hx]
      exact hold
  · intro pr hpr'
    rw [userRegistered_add_purchase]
    have hpr'' : pr ∈ db.purchases ++
        [{ id := db.next_purchase_id, user_id := uid, product_id := pid,
           price := price, purchased_at := now }] := hpr'
    rcases List.mem_append.mp hpr'' with hmem | hmem
    · exact hpr pr hmem
    · have heq := List.mem_singleton.mp hmem
      subst heq
      exact hreg

lemma ledgerConsistent_add_user (uid : Nat) (a b c : String) (db : DB)
    (h : ledgerConsistent db) : ledgerConsistent (add_user uid a b c db) := by
  obtain ⟨hagg, hpr⟩ := h
  unfold add_user
  split
  · exact ⟨hagg, hpr⟩
  · rename_i hnone
    have hnil : userPurchases uid db = [] := by
      unfold userPurchases
      rw [List.filter_eq_nil_iff]
      intro pr hmem hbeq
      have hid : pr.user_id = uid := by simpa using hbeq
      have hrg := hpr pr hmem
      rw [hid] at hrg
      exact hnone hrg
    constructor
    · intro u' hu'
      have hu'' : u' ∈ db.users ++
          [{ user_id := uid, username := a, first_name := b, balance := 0,
             total_purchases := 0, total_spent := 0, registered_at := c }] := hu'
      rcases List.mem_append.mp hu'' with hmem | hmem
      · exact hagg u' hmem
      · have heq := List.mem_singleton.mp hmem
        subst heq
        constructor
        · show (0 : Nat) = (userPurchases uid db).length
          rw [hnil]
          rfl
        · show (0 : Rat) = ((userPurchases uid db).map PurchaseRow.price).sum
          rw [hnil]
          rfl
    · intro pr hmem
      have hh := hpr pr hmem
      unfold userRegistered at hh ⊢
      dsimp only
      rw [List.any_append, hh]
      rfl

lemma ledgerConsistent_buy (pid r : Nat) (resp : GwCreateResponse) (now : String)
    (db : DB) (h : ledgerConsistent db) :
    ledgerConsistent ((cb_buy pid r resp now db).1) := by
  unfold cb_buy
  split
  · exact h
  · split
    · exact h
    · exact h

lemma ledgerConsistent_check (invoice_id : String) (requester : Nat)
    (gw : Option GatewayInvoice) (now : String) (db : DB)
    (hreg : userRegistered requester db = true) (h : ledgerConsistent db) :
    ledgerConsistent ((cb_check_payment invoice_id requester gw now db).1) := by
  unfold cb_check_payment
  cases gw with
  | none => exact h
  | some invoice =>
    dsimp only
    split
    · split
      · split
        · exact ledgerConsistent_add_purchase _ _ _ _ _ hreg h
        · exact h
      · exact h
    · exact h

lemma ledgerConsistent_applyOp (op : Op) (db : DB) (hok : opOk db op = true)
    (h : ledgerConsistent db) : ledgerConsistent (applyOp op db) := by
  cases op with
  | addUser uid a b c => exact ledgerConsistent_add_user uid a b c db h
  | addProduct c n d p t co f cr => exact h
  | deleteProduct pid => exact h
  | savePayment u pid inv amt now => exact h
  | updateStatus inv s => exact h
  | addPurchase u pid price now => exact ledgerConsistent_add_purchase u pid price now db hok h
  | buy pid r resp now => exact ledgerConsistent_buy pid r resp now db h
  | checkPayment inv r gw now => exact ledgerConsistent_check inv r gw now db hok h

lemma ledgerConsistent_runOps (ops : List Op) : ∀ db : DB,
    ledgerConsistent db → opsOk db ops = true → ledgerConsistent (runOps ops db) := by
  induction ops with
  | nil => intro db h _; exact h
  | cons op rest ih =>
    intro db h hok
    simp only [opsOk, Bool.and_eq_true] at hok
    simp only [runOps]
    exact ih (applyOp op db) (ledgerConsistent_applyOp op db hok.1 h) hok.2

/-- Claim C7 (counterexample): recording a purchase for user 5 before
user 5 is registered, then registering the user (INSERT OR IGNORE with
zero counters), yields a state whose aggregate row reads 0 purchases
while one Purchase row for user 5 exists — the aggregate diverges from
the Purchase ledger. -/
theorem c7_counterexample : ¬ aggregateConsistent dbBadOrder := by decide

/-- Claim C7 (amended): after any sequence of core operations in
which every purchase (direct `add_purchase` or one performed inside the
check-payment path) is recorded for an already-registered user, each
user row's total purchase count equals the number of that user's
Purchase rows and its total spent equals the sum of their prices. -/
theorem aggregate_matches_purchases (ops : List Op) (db : DB)
    (h : ledgerConsistent db) (hok : opsOk db ops = true) :
    aggregateConsistent (runOps ops db) :=
  (ledgerConsistent_runOps ops db h hok).1

/-- Claim C7 (amended), witness: the invariant evaluated after a
register-then-purchase sequence from the empty database. -/
theorem aggregate_matches_purchases_witness :
    aggregateConsistent (runOps
      [Op.addUser 5 "u" "f" "t0", Op.addPurchase 5 7 10 "t1"] emptyDB) :=
  aggregate_matches_purchases [Op.addUser 5 "u" "f" "t0", Op.addPurchase 5 7 10 "t1"]
    emptyDB (by decide) (by decide)

lemma find?_map_fixed {α : Type} (f : α → α) (p : α → Bool)
    (hf : ∀ x, p (f x) = p x) : ∀ l : List α, (l.map f).find? p = (l.find? p).map f := by
  intro l
  induction l with
  | nil => rfl
  | cons x l ih =>
    by_cases hx : p x = true
    · rw [List.map_cons, List.find?_cons_of_pos _ (by rw [hf]; exact hx),
          List.find?_cons_of_pos _ hx]
      rfl
    · rw [List.map_cons, List.find?_cons_of_neg _ (by rw [hf]; exact hx),
          List.find?_cons_of_neg _ hx, ih]

/-- Claim C10: `get_product` ignores the active flag, so after
`delete_product` deactivates a product it is still returned (with
is_active 0), it disappears from every category listing, and a Payment
created before the deactivation is still fulfilled by a later payment
check, which delivers the deactivated product's content and appends the
Purchase row. -/
theorem deactivated_product_still_fulfilled
    (pid : Nat) (db : DB) (p : ProductRow) (hp : get_product pid db = some p)
    (invoice_id : String) (requester : Nat) (now : String)
    (gw : GatewayInvoice) (hgw : gw.status = "paid")
    (pay : PaymentRow) (hpay : get_payment invoice_id db = some pay)
    (hpend : pay.status = "pending") (hpid : pay.product_id = pid) :
    get_product pid (delete_product pid db) = some { p with is_active := 0 }
    ∧ (∀ cid q, q ∈ get_products_by_category cid (delete_product pid db) → q.id ≠ pid)
    ∧ (cb_check_payment invoice_id requester (some gw) now (delete_product pid db)).2
        = CheckOutcome.fulfilled requester (some { p with is_active := 0 })
    ∧ ((cb_check_payment invoice_id requester (some gw) now (delete_product pid db)).1).purchases
        = db.purchases ++
          [{ id := db.next_purchase_id, user_id := requester, product_id := pay.product_id,
             price := pay.amount, purchased_at := now }] := by
  have hpid2 : p.id = pid := by simpa using List.find?_some hp
  have hkey : ∀ q : ProductRow,
      ((fun q => q.id == pid) ((fun q => if q.id == pid then { q with is_active := 0 } else q) q))
        = ((fun q => q.id == pid) q) := by
    intro q; dsimp only; split <;> rfl
  have ha : get_product pid (delete_product pid db) = some { p with is_active := 0 } := by
    unfold get_product delete_product
    dsimp only
    rw [find?_map_fixed _ _ hkey]
    rw [show db.products.find? (fun q => q.id == pid) = some p from hp]
    dsimp only [Option.map]
    rw [if_pos (show (p.id == pid) = true by simpa using hpid2)]
  have hb : ∀ cid q, q ∈ get_products_by_category cid (delete_product pid db) → q.id ≠ pid := by
    intro cid q hq hqid
    unfold get_products_by_category delete_product at hq
    dsimp only at hq
    have hq' := List.mem_filter.mp hq
    obtain ⟨x, hx, hfx⟩ := List.mem_map.mp hq'.1
    have h2 := hq'.2
    rw [Bool.and_eq_true] at h2
    have hact : (q.is_active == 1) = true := h2.2
    by_cases hxid : (x.id == pid) = true
    · rw [if_pos hxid] at hfx
      rw [← hfx] at hact
      simp at hact
    · rw [if_neg hxid] at hfx
      subst hfx
      exact hxid (by simpa using hqid)
  have hpay' : get_payment invoice_id (delete_product pid db) = some pay := hpay
  have hrun : cb_check_payment invoice_id requester (some gw) now (delete_product pid db)
      = (add_purchase requester pay.product_id pay.amount now
           (update_payment_status invoice_id "paid" (delete_product pid db)),
         CheckOutcome.fulfilled requester
           (get_product pay.product_id
             (update_payment_status invoice_id "paid" (delete_product pid db)))) := by
    simp [cb_check_payment, hgw, hpay', hpend]
  have hprod : get_product pay.product_id
      (update_payment_status invoice_id "paid" (delete_product pid db))
      = some { p with is_active := 0 } := by
    rw [hpid]
    exact ha
  refine ⟨ha, hb, ?_, ?_⟩
  · rw [hrun]
    dsimp only
    rw [hprod]
  · rw [hrun]
    rfl

/-- Claim C10, witness: deactivation of product 7 followed by a
successful check of its pending invoice. -/
theorem deactivated_product_still_fulfilled_witness :
    get_product 7 (delete_product 7 dbRace) = some { prodSeven with is_active := 0 }
    ∧ (cb_check_payment "inv1" 1 (some { status := "paid" }) "t1"
          (delete_product 7 dbRace)).2
        = CheckOutcome.fulfilled 1 (some { prodSeven with is_active := 0 }) := by
  have h := deactivated_product_still_fulfilled 7 dbRace prodSeven rfl "inv1" 1 "t1"
    { status := "paid" } rfl payPending rfl rfl rfl
  exact ⟨h.1, h.2.2.1⟩

end Shop
